import Mathlib

/-!
Verification development for the Beurer BF 915 Home Assistant integration
(`custom_components/beurer_bf915`).  The bluetooth engine of the
integration (`bluetooth.py` together with the static configuration in
`const.py`) is embedded shallowly:

* Python byte buffers (`bytearray`) become `List ℕ` (each entry a byte
  value);
* Python floats become `ℚ` (every quantity the engine manipulates is of
  the form `n / 10` or a ratio of such values, so exact rationals track
  the float computation faithfully at the granularity the properties
  speak about);
* `round(x, 1)` (Python round-half-to-even) becomes `round1`;
* the per-user measurement dictionary `self._measurements` becomes a
  total function `ℕ → Measurements`, updated pointwise;
* fallible operations (`struct.unpack` on a possibly short slice) return
  `Option`;
* the asynchronous update cycle `async_update`, whose external effects
  (library import, BLE scan, connect, GATT exchange) are out of the
  control of the program, is embedded as a transition function indexed by the
  outcome of those external interactions (`CycleOutcome`), faithfully
  reproducing the `try/except/finally` structure of the source.
-/

/-- One configured user profile, one entry of `USER_PROFILES` in
`const.py`: `{"name": ..., "gender": ..., "age": ..., "height": ...}`.
`gender` is the literal string the source compares against `"male"`. -/
structure UserProfile where
  name : String
  gender : String
  age : ℕ
  height : ℕ
deriving DecidableEq

/-- The static roster `USER_PROFILES` of `const.py`: a dictionary keyed by
user id, embedded as an association list in source order. -/
def USER_PROFILES : List (ℕ × UserProfile) :=
  [(1, ⟨"Pedro", "male", 50, 181⟩),
   (2, ⟨"Sofia", "female", 53, 167⟩),
   (3, ⟨"Diogo", "male", 21, 184⟩),
   (4, ⟨"Mariana", "female", 19, 165⟩)]

/-- Dictionary lookup in `USER_PROFILES`: `some profile` when the id is a
key (`uid in USER_PROFILES` in the source), `none` otherwise. -/
def userProfile? (uid : ℕ) : Option UserProfile :=
  (USER_PROFILES.find? (fun e => e.1 == uid)).map Prod.snd

/-- Lookup `USER_PROFILES[uid]`.  The source indexes the dictionary only with
ids that are either matched keys or the literal `1`, so the junk default
is never reached on any path of the embedded code. -/
def profileD (uid : ℕ) : UserProfile :=
  (userProfile? uid).getD ⟨"", "", 0, 0⟩

/-- Embedding of the Python built-in `round` to an integer: round half to even. -/
def pyRound (q : ℚ) : ℤ :=
  let f : ℤ := ⌊q⌋
  let r : ℚ := q - f
  if r < 1/2 then f
  else if 1/2 < r then f + 1
  else if f % 2 = 0 then f else f + 1

/-- Embedding of the Python `round(x, 1)`: round to one decimal digit. -/
def round1 (q : ℚ) : ℚ := (pyRound (q * 10) : ℚ) / 10

/-- One per-user measurement snapshot, the value dictionary built by
`_get_default_measurements` and mutated by `_process_notification`.
`timestamp` is an abstract tick standing for `datetime.now()`. -/
structure Measurements where
  timestamp : ℕ
  weight : ℚ
  body_fat : ℚ
  water : ℚ
  muscle : ℚ
  bone_mass : ℚ
  bmi : ℚ
  bmr : ℕ
  amr : ℕ
  visceral_fat : ℕ
  metabolic_age : ℕ
  body_type : String
deriving DecidableEq

/-- Embedding of `_get_default_measurements(user_id)` from `bluetooth.py` (lines
39-60): weight and body-composition fields start at the `0` sentinel,
while `bmi`, `bmr`, `amr` and `metabolic_age` get non-zero defaults
computed from the profile. -/
def getDefaultMeasurements (uid : ℕ) : Measurements :=
  let profile := profileD uid
  let height_m : ℚ := (profile.height : ℚ) / 100
  let default_weight : ℚ := if profile.gender = "male" then 70 else 60
  let default_bmi : ℚ := default_weight / height_m ^ 2
  { timestamp := 0
    weight := 0
    body_fat := 0
    water := 0
    muscle := 0
    bone_mass := 0
    bmi := round1 default_bmi
    bmr := if profile.gender = "male" then 1500 else 1200
    amr := if profile.gender = "male" then 2000 else 1600
    visceral_fat := 0
    metabolic_age := profile.age
    body_type := "Unknown" }

/-- The measurement store as created in `BeurerBF915Device.__init__`
(lines 35-37): one default snapshot per configured user id. -/
def initialStore : ℕ → Measurements := fun uid => getDefaultMeasurements uid

/-- Embedding of `struct.unpack("<H", data[pos:pos+2])[0]` under the guard
`pos + 2 <= len(data)`; `none` models the guard failing (equivalently,
`struct.unpack` raising `struct.error` on a short slice). -/
def u16le (data : List ℕ) (pos : ℕ) : Option ℕ :=
  if pos + 2 ≤ data.length then some (data.getD pos 0 + 256 * data.getD (pos + 1) 0)
  else none

/-- The weight scan loop of `_process_notification` (lines 240-246),
parameterised by the candidate offset list: at each offset with two
bytes available, read a little-endian u16 `raw` and accept the first
offset where `2.0 <= raw/10 <= 300.0`; `_process_notification` runs it
on the literal list of the source, `[7, 8, 6]`. -/
def findWeightRaw (data : List ℕ) : List ℕ → Option ℕ
  | [] => none
  | pos :: rest =>
    match u16le data pos with
    | none => findWeightRaw data rest
    | some raw =>
      if (2 : ℚ) ≤ (raw : ℚ) / 10 ∧ (raw : ℚ) / 10 ≤ 300 then some raw
      else findWeightRaw data rest

/-- The user-id scan of `_process_notification` (lines 252-263), with the
loop over `[2, 3, 1]` unrolled: the first offset in range whose byte is a
`USER_PROFILES` key wins; on no match (`user_id` still `None`, or the
falsy `0`, which no key equals) the id defaults to the literal `1`. -/
def findUserId (data : List ℕ) : ℕ :=
  let candidate : Option ℕ :=
    if 2 < data.length ∧ (userProfile? (data.getD 2 0)).isSome then some (data.getD 2 0)
    else if 3 < data.length ∧ (userProfile? (data.getD 3 0)).isSome then some (data.getD 3 0)
    else if 1 < data.length ∧ (userProfile? (data.getD 1 0)).isSome then some (data.getD 1 0)
    else none
  match candidate with
  | some u => if u = 0 then 1 else u
  | none => 1

/-- One extended-field decode,
`round(struct.unpack("<H", data[lo:lo+2])[0] / 10.0, 1) if data[lo:lo+2] != b"\xff\xff" else 0.0`
(lines 273-295).  The conditional checks the slice against `FF FF` first
(yielding the `0.0` sentinel without unpacking), and only otherwise
unpacks; `none` models `struct.unpack` raising on a short slice, which
the enclosing `try` of the source catches, keeping earlier field writes
and skipping the rest of the block. -/
def extField (data : List ℕ) (lo : ℕ) : Option ℚ :=
  if data.getD lo 0 = 255 ∧ data.getD (lo + 1) 0 = 255 then some 0
  else (u16le data lo).map (fun v => round1 ((v : ℚ) / 10))

/-- The value `extField` yields when it succeeds: a function of the two
bytes at `lo` and `lo + 1` only. -/
def extValQ (data : List ℕ) (lo : ℕ) : ℚ :=
  if data.getD lo 0 = 255 ∧ data.getD (lo + 1) 0 = 255 then 0
  else round1 (((data.getD lo 0 + 256 * data.getD (lo + 1) 0 : ℕ) : ℚ) / 10)

/-- The `len(data) >= 20` block of `_process_notification` (lines
271-309): body fat, water, muscle and bone mass are decoded at the fixed
absolute offsets 9, 11, 13, 15 and written unconditionally, then `bmi`
is recomputed from the accepted weight and the profile height.  The
whole block sits in a single `try`: a failing decode keeps the field
writes already made and skips everything after it, including the `bmi`
update. -/
def updateExtended (data : List ℕ) (weight : ℚ) (height : ℕ) (m : Measurements) : Measurements :=
  match extField data 9 with
  | none => m
  | some bf =>
    let m1 := { m with body_fat := bf }
    match extField data 11 with
    | none => m1
    | some wa =>
      let m2 := { m1 with water := wa }
      match extField data 13 with
      | none => m2
      | some mu =>
        let m3 := { m2 with muscle := mu }
        match extField data 15 with
        | none => m3
        | some bo =>
          let m4 := { m3 with bone_mass := bo }
          { m4 with bmi := round1 (weight / (((height : ℚ) / 100) ^ 2)) }

/-- Pointwise dictionary assignment `store[uid] = m`. -/
def storeUpdate (store : ℕ → Measurements) (uid : ℕ) (m : Measurements) :
    ℕ → Measurements :=
  fun k => if k = uid then m else store k

/-- Embedding of `_process_notification(data)` (lines 227-316) as a pure store
transformer.  Frames shorter than 10 bytes are dropped; otherwise the
weight scan over `[7, 8, 6]` either fails (no store change) or accepts a
raw value at the first plausible offset, after which the user id is
attributed, weight (rounded to 0.1 kg) and timestamp are written, and
for frames of at least 20 bytes the extended block runs.  Only the
snapshot of the attributed user is reassigned. -/
def processNotification (data : List ℕ) (now : ℕ) (store : ℕ → Measurements) :
    ℕ → Measurements :=
  if data.length < 10 then store
  else
    match findWeightRaw data [7, 8, 6] with
    | none => store
    | some raw =>
      let weight : ℚ := (raw : ℚ) / 10
      let uid := findUserId data
      let profile := profileD uid
      let m0 := store uid
      let m1 := { m0 with weight := round1 weight, timestamp := now }
      let m2 := if 20 ≤ data.length then updateExtended data weight profile.height m1 else m1
      storeUpdate store uid m2

/-- Embedding of `0x01 if profile["gender"] == "male" else 0x00` (line 189). -/
def genderByte (gender : String) : ℕ :=
  if gender = "male" then 1 else 0

/-- Embedding of `struct.pack("BBBBBBBB", ...)`: packs eight unsigned bytes, raising
(`none`) when any value is out of byte range. -/
def packB8 (vals : List ℕ) : Option (List ℕ) :=
  if vals.length = 8 ∧ vals.all (fun v => v < 256) then some vals else none

/-- The per-user query command built in `_connect_and_read` (lines
188-200): `bytes([0xE7, 0x41])` concatenated with the packed
`user_id, gender_byte, age, height, 0x03, 0x00, 0x00, 0x00`. -/
def buildUserCommand (uid : ℕ) (p : UserProfile) : Option (List ℕ) :=
  (packB8 [uid, genderByte p.gender, p.age, p.height, 3, 0, 0, 0]).map
    (fun tail => [0xE7, 0x41] ++ tail)

/-- Outcome of the interaction of one update cycle with the outside world
(`bleak` import, BLE scan, connect and GATT session), the part of
`async_update` / `_connect_and_read` that is not under the
control of the program.  Here `success frames` carries the notification buffers received in
arrival order, each with its arrival tick; every other constructor is one
of the internal failure modes the source handles (import error at line
74, scan timeout/error at lines 89-92, scale absent at line 105,
`connect` returning false or raising at lines 130-134 and 224, missing
service or characteristic at lines 154-160, `start_notify` raising,
caught at line 224). -/
inductive CycleOutcome where
  | importError
  | scanTimeout
  | scanError
  | scaleNotFound
  | connectFailed
  | serviceMissing
  | charMissing
  | notifyFailed
  | success (frames : List (List ℕ × ℕ))
deriving DecidableEq

/-- The failure constructors of `CycleOutcome`: every outcome in which no
notification is ever decoded. -/
def CycleOutcome.isFailure : CycleOutcome → Bool
  | CycleOutcome.success _ => false
  | _ => true

/-- The engine state `async_update` touches: the measurement dictionary
and the `_is_scanning` single-flight flag. -/
structure DeviceState where
  measurements : ℕ → Measurements
  is_scanning : Bool

/-- Fold the received notification buffers through the decoder in
arrival order (the loop at lines 210-211). -/
def runFrames (frames : List (List ℕ × ℕ)) (store : ℕ → Measurements) :
    ℕ → Measurements :=
  frames.foldl (fun st f => processNotification f.1 f.2 st) store

/-- Embedding of `async_update` (lines 62-116) as a transition function on
`DeviceState`, indexed by the external outcome.  If `_is_scanning` is
already set the call returns the current store at once, starting
nothing.  Otherwise the flag is set, the attempt runs — on every failure
outcome the `try/except` structure leaves the measurements untouched; on
success the received frames are decoded in order — the `finally` clears
the flag, and the (possibly updated) store is returned.  The third
component records whether an attempt (scan and possible session) was
started at all. -/
def async_update (env : CycleOutcome) (s : DeviceState) :
    (ℕ → Measurements) × DeviceState × Bool :=
  if s.is_scanning then (s.measurements, s, false)
  else
    let m : ℕ → Measurements :=
      match env with
      | CycleOutcome.success frames => runFrames frames s.measurements
      | _ => s.measurements
    (m, ⟨m, false⟩, true)

/-- Concrete 10-byte buffer whose little-endian u16 reads are implausible
at offsets 7, 8 and 6 but plausible (value 300, i.e. 30.0 kg) at offset 4. -/
def dC1 : List ℕ := [0, 0, 0, 0, 44, 1, 0, 0, 0, 0]

/-- Concrete 10-byte witness buffer: user byte 4 at offset 2, weight raw
556 at offset 7. -/
def dW1 : List ℕ := [0, 0, 4, 0, 0, 0, 0, 44, 2, 0]

/-- Concrete 20-byte buffer: user 1 at offset 2, weight raw 700 at
offset 7, body-fat raw 900 (i.e. 90.0, outside `[0.1, 80.0]`), water raw
500, muscle raw 400, bone-mass raw 30. -/
def dC2 : List ℕ := [0, 0, 1, 0, 0, 0, 0, 188, 2, 132, 3, 244, 1, 144, 1, 30, 0, 0, 0, 0]

/-- Store in which user 1 already holds a plausible body-fat value. -/
def storeC2 : ℕ → Measurements :=
  fun uid =>
    if uid = 1 then { getDefaultMeasurements 1 with body_fat := 25 }
    else getDefaultMeasurements uid

/-- Concrete 20-byte witness buffer, like `dC2` but attributed to user 2. -/
def dW2 : List ℕ := [0, 0, 2, 0, 0, 0, 0, 188, 2, 132, 3, 244, 1, 144, 1, 30, 0, 0, 0, 0]

/-- Concrete 10-byte buffer: offset 0 holds the configured id 2, offsets
2, 3, 1 hold the unconfigured byte 9, weight raw 700 at offset 7. -/
def dC3 : List ℕ := [2, 9, 9, 9, 0, 0, 0, 188, 2, 0]

/-- Concrete 10-byte witness buffer with the configured id 2 at offset 2. -/
def dW3 : List ℕ := [0, 0, 2, 0, 0, 0, 0, 0, 0, 0]

/-- Concrete 10-byte buffer: user 1 at offset 2, weight raw 556 (55.6 kg)
at offset 7, too short for the extended block. -/
def dC4 : List ℕ := [0, 0, 1, 0, 0, 0, 0, 44, 2, 0]

/-- Concrete 20-byte witness buffer for the extended block, identical in
layout to `dC2`. -/
def dW5 : List ℕ := [0, 0, 1, 0, 0, 0, 0, 188, 2, 132, 3, 244, 1, 144, 1, 30, 0, 0, 0, 0]

/-- Concrete 10-byte witness buffer attributed to user 3. -/
def dW10 : List ℕ := [0, 0, 3, 0, 0, 0, 0, 44, 2, 0]

/-- Device state with an update cycle already in progress. -/
def busyState : DeviceState := ⟨initialStore, true⟩

/-- The Python `round` is the identity on integers. -/
theorem pyRound_intCast (n : ℤ) : pyRound (n : ℚ) = n := by
  unfold pyRound
  rw [Int.floor_intCast]
  norm_num

/-- Rounding a multiple of one tenth to one decimal digit changes nothing. -/
theorem round1_div_ten (n : ℕ) : round1 ((n : ℚ) / 10) = (n : ℚ) / 10 := by
  have h : ((n : ℤ) : ℚ) = (n : ℚ) := by push_cast; ring
  unfold round1
  rw [div_mul_cancel₀ _ (by norm_num : (10 : ℚ) ≠ 0), ← h, pyRound_intCast, h]

/-- With two bytes available, an extended-field decode succeeds and
yields the value determined by its own two bytes. -/
theorem extField_eq (data : List ℕ) (lo : ℕ) (h : lo + 2 ≤ data.length) :
    extField data lo = some (extValQ data lo) := by
  unfold extField extValQ u16le
  by_cases hc : data.getD lo 0 = 255 ∧ data.getD (lo + 1) 0 = 255
  · rw [if_pos hc, if_pos hc]
  · rw [if_neg hc, if_neg hc, if_pos h]
    rfl

/-- Numeric evaluation of `extValQ` away from the `FF FF` sentinel. -/
theorem extValQ_num (data : List ℕ) (lo a b : ℕ) (ha : data.getD lo 0 = a)
    (hb : data.getD (lo + 1) 0 = b) (hne : ¬ (a = 255 ∧ b = 255)) :
    extValQ data lo = ((a + 256 * b : ℕ) : ℚ) / 10 := by
  unfold extValQ
  rw [ha, hb, if_neg hne]
  exact round1_div_ten (a + 256 * b)

/-- On a frame of at least 20 bytes the extended block runs to
completion: every field is written with the value of its own bytes and
`bmi` is recomputed. -/
theorem updateExtended_spec (data : List ℕ) (w : ℚ) (ht : ℕ) (m : Measurements)
    (h20 : 20 ≤ data.length) :
    updateExtended data w ht m =
      { m with body_fat := extValQ data 9, water := extValQ data 11,
               muscle := extValQ data 13, bone_mass := extValQ data 15,
               bmi := round1 (w / (((ht : ℚ) / 100) ^ 2)) } := by
  have h9 := extField_eq data 9 (by omega)
  have h11 := extField_eq data 11 (by omega)
  have h13 := extField_eq data 13 (by omega)
  have h15 := extField_eq data 15 (by omega)
  unfold updateExtended
  rw [h9, h11, h13, h15]

/-- Characterisation of `processNotification` on a frame whose weight
scan accepts `raw`. -/
theorem processNotification_accept (data : List ℕ) (now : ℕ)
    (store : ℕ → Measurements) (raw : ℕ) (h10 : ¬ data.length < 10)
    (hw : findWeightRaw data [7, 8, 6] = some raw) :
    processNotification data now store =
      storeUpdate store (findUserId data)
        (if 20 ≤ data.length then
           updateExtended data ((raw : ℚ) / 10) (profileD (findUserId data)).height
             { store (findUserId data) with
                 weight := round1 ((raw : ℚ) / 10), timestamp := now }
         else
           { store (findUserId data) with
               weight := round1 ((raw : ℚ) / 10), timestamp := now }) := by
  unfold processNotification
  rw [if_neg h10, hw]

/-- A frame that is short or fails the weight scan leaves the store
untouched. -/
theorem processNotification_noop (data : List ℕ) (now : ℕ)
    (store : ℕ → Measurements)
    (h : data.length < 10 ∨ findWeightRaw data [7, 8, 6] = none) :
    processNotification data now store = store := by
  unfold processNotification
  rcases h with h | h
  · rw [if_pos h]
  · split
    · rfl
    · rw [h]

/-- Folding undecodable frames through the decoder is the identity. -/
theorem runFrames_noop (frames : List (List ℕ × ℕ)) (store : ℕ → Measurements)
    (h : ∀ f ∈ frames, f.1.length < 10 ∨ findWeightRaw f.1 [7, 8, 6] = none) :
    runFrames frames store = store := by
  induction frames generalizing store with
  | nil => rfl
  | cons f rest ih =>
    unfold runFrames
    rw [List.foldl_cons, processNotification_noop f.1 f.2 store (h f (List.mem_cons_self f rest))]
    exact ih store (fun g hg => h g (List.mem_cons_of_mem f hg))

/-- A configured profile id is never the falsy byte `0`. -/
theorem configured_ne_zero (v : ℕ) (h : (userProfile? v).isSome = true) : v ≠ 0 := by
  intro hv
  subst hv
  exact absurd h (by decide)

/-- C1 counterexample: on `dC1` the claimed candidate list
`[7, 8, 6, 4, 5, 9]` validates at offset 4 with raw value 300
(30.0 kg), so the claim predicts a stored weight of `300 / 10`, but the
decoder of the source scans only `[7, 8, 6]`, accepts nothing, and
leaves the store (weight still the `0` sentinel) unchanged. -/
theorem c1_scan_list_cex :
    findWeightRaw dC1 [7, 8, 6, 4, 5, 9] = some 300 ∧
    findWeightRaw dC1 [7, 8, 6] = none ∧
    processNotification dC1 3 initialStore = initialStore ∧
    (initialStore (findUserId dC1)).weight = 0 ∧
    (300 : ℚ) / 10 ≠ 0 := by
  have h2 : findWeightRaw dC1 [7, 8, 6] = none := by
    norm_num [findWeightRaw, u16le, dC1]
  exact ⟨by norm_num [findWeightRaw, u16le, dC1], h2,
    processNotification_noop dC1 3 initialStore (Or.inr h2), rfl, by norm_num⟩

/-- C1 (corrected): for every buffer of at least 10 bytes the decoder
scans the ordered candidate offset list `[7, 8, 6]` (not
`[7, 8, 6, 4, 5, 9]`); at each offset with two bytes available it reads
an unsigned little-endian 16-bit integer `v` and accepts weight `v/10`
kg at the first offset where `v/10` lies in `[2.0, 300.0]`, then stops
scanning; in particular, if `v` at offset 7 (the first offset in scan
order) is plausible, the stored weight of the attributed user equals
exactly `v/10`. -/
theorem c1_weight_first_offset (data : List ℕ) (now : ℕ)
    (store : ℕ → Measurements) (raw : ℕ) (h10 : 10 ≤ data.length)
    (h7 : u16le data 7 = some raw) (hlo : (2 : ℚ) ≤ (raw : ℚ) / 10)
    (hhi : (raw : ℚ) / 10 ≤ 300) :
    findWeightRaw data [7, 8, 6] = some raw ∧
    (processNotification data now store (findUserId data)).weight = (raw : ℚ) / 10 := by
  have hfw : findWeightRaw data [7, 8, 6] = some raw := by
    unfold findWeightRaw
    rw [h7]
    exact if_pos ⟨hlo, hhi⟩
  refine ⟨hfw, ?_⟩
  rw [processNotification_accept data now store raw (by omega) hfw]
  unfold storeUpdate
  rw [if_pos rfl]
  by_cases h20 : 20 ≤ data.length
  · rw [if_pos h20, updateExtended_spec _ _ _ _ h20]
    exact round1_div_ten raw
  · rw [if_neg h20]
    exact round1_div_ten raw

/-- C1 witness: the amended theorem applied to the concrete buffer
`dW1` (raw weight 556 at offset 7). -/
theorem c1_weight_first_offset_witness :
    findWeightRaw dW1 [7, 8, 6] = some 556 ∧
    (processNotification dW1 2 initialStore (findUserId dW1)).weight =
      ((556 : ℕ) : ℚ) / 10 :=
  c1_weight_first_offset dW1 2 initialStore 556 (by decide) (by decide)
    (by norm_num) (by norm_num)

/-- C2 counterexample: on the 20-byte frame `dC2` the decoded body-fat
value is `900 / 10 = 90.0`, outside the claimed acceptance range
`[0.1, 80.0]`, yet the stored body-fat of user 1 is overwritten from its
previous value 25.0 to 90.0. -/
theorem c2_range_filter_cex :
    (storeC2 1).body_fat = 25 ∧
    (processNotification dC2 7 storeC2 1).body_fat = 90 ∧
    ¬ (90 : ℚ) ≤ 80 := by
  have hw : findWeightRaw dC2 [7, 8, 6] = some 700 := by
    norm_num [findWeightRaw, u16le, dC2]
  refine ⟨rfl, ?_, by norm_num⟩
  rw [processNotification_accept dC2 7 storeC2 700 (by decide) hw]
  have hu : findUserId dC2 = 1 := by decide
  rw [hu]
  unfold storeUpdate
  rw [if_pos rfl, if_pos (by decide : 20 ≤ dC2.length),
    updateExtended_spec _ _ _ _ (by decide : 20 ≤ dC2.length)]
  show extValQ dC2 9 = 90
  rw [extValQ_num dC2 9 132 3 (by decide) (by decide) (by decide)]
  norm_num

/-- C2 (corrected): for every frame of at least 20 bytes whose weight
scan accepts a value, each of the percentage fields body_fat, water and
muscle is overwritten unconditionally — no `[0.1, 80.0]` range check
exists — with the value decoded from its own fixed byte pair (offsets
9, 11, 13), namely the little-endian value divided by 10 and rounded,
except that an `FF FF` byte pair stores the `0` sentinel. -/
theorem c2_percentage_overwrite (data : List ℕ) (now : ℕ)
    (store : ℕ → Measurements) (raw : ℕ) (h20 : 20 ≤ data.length)
    (hw : findWeightRaw data [7, 8, 6] = some raw) :
    (processNotification data now store (findUserId data)).body_fat = extValQ data 9 ∧
    (processNotification data now store (findUserId data)).water = extValQ data 11 ∧
    (processNotification data now store (findUserId data)).muscle = extValQ data 13 := by
  rw [processNotification_accept data now store raw (by omega) hw]
  unfold storeUpdate
  rw [if_pos rfl, if_pos h20, updateExtended_spec _ _ _ _ h20]
  exact ⟨rfl, rfl, rfl⟩

/-- C2 witness: the amended theorem applied to the concrete 20-byte
frame `dW2`. -/
theorem c2_percentage_overwrite_witness :
    (processNotification dW2 8 initialStore (findUserId dW2)).body_fat =
      extValQ dW2 9 :=
  (c2_percentage_overwrite dW2 8 initialStore 700 (by decide)
    (by norm_num [findWeightRaw, u16le, dW2])).1

/-- C3 counterexample: on `dC3` the byte at offset 0 is the configured
profile id 2, no byte at offsets 2, 3, 1 matches any configured id, and
a weight is accepted — yet the reading goes to the literal default user
1, not to user 2: the decoder never scans offset 0. -/
theorem c3_offset_zero_cex :
    dC3.getD 0 0 = 2 ∧
    (userProfile? 2).isSome = true ∧
    findUserId dC3 = 1 ∧
    (processNotification dC3 4 initialStore 1).weight = 70 ∧
    processNotification dC3 4 initialStore 2 = initialStore 2 := by
  have hw : findWeightRaw dC3 [7, 8, 6] = some 700 := by
    norm_num [findWeightRaw, u16le, dC3]
  have hacc := processNotification_accept dC3 4 initialStore 700 (by decide) hw
  refine ⟨rfl, by decide, by decide, ?_, ?_⟩
  · rw [hacc, show findUserId dC3 = 1 from by decide]
    unfold storeUpdate
    rw [if_pos rfl, if_neg (by decide : ¬ 20 ≤ dC3.length)]
    show round1 (((700 : ℕ) : ℚ) / 10) = 70
    rw [round1_div_ten]
    norm_num
  · rw [hacc]
    unfold storeUpdate
    rw [if_neg (by decide : ¬ (2 : ℕ) = findUserId dC3)]

/-- C3 (corrected): the decoder selects the owning user id by scanning
the ordered byte-offset list `[2, 3, 1]` (offset 0 is never scanned) and
taking the first in-range byte equal to a configured profile id — so a
configured id at offset 2 wins over candidates at offsets 3 and 1 — and
if no scanned byte matches any configured profile id the reading is
attributed to the literal user id 1 (which coincides with the lowest
configured id of the shipped roster) rather than dropped. -/
theorem c3_user_attribution (data : List ℕ) :
    (2 < data.length → (userProfile? (data.getD 2 0)).isSome = true →
      findUserId data = data.getD 2 0) ∧
    ((¬ (2 < data.length ∧ (userProfile? (data.getD 2 0)).isSome = true)) →
     (¬ (3 < data.length ∧ (userProfile? (data.getD 3 0)).isSome = true)) →
     (¬ (1 < data.length ∧ (userProfile? (data.getD 1 0)).isSome = true)) →
      findUserId data = 1) := by
  constructor
  · intro h2 hs
    unfold findUserId
    rw [if_pos (show 2 < data.length ∧ (userProfile? (data.getD 2 0)).isSome by exact ⟨h2, hs⟩)]
    exact if_neg (configured_ne_zero _ hs)
  · intro hA hB hC
    unfold findUserId
    rw [if_neg hA, if_neg hB, if_neg hC]

/-- C3 witness: the amended theorem applied to the concrete buffer
`dW3` (configured id 2 at offset 2) and to the short unmatched buffer
`[9, 9, 9]`. -/
theorem c3_user_attribution_witness :
    findUserId dW3 = 2 ∧ findUserId [9, 9, 9] = 1 :=
  ⟨(c3_user_attribution dW3).1 (by decide) (by decide),
   (c3_user_attribution [9, 9, 9]).2 (by decide) (by decide) (by decide)⟩

/-- C4 counterexample: the 10-byte frame `dC4` updates the weight of
user 1 to 55.6 kg, but — the frame being shorter than 20 bytes — `bmi`
keeps its previous (default) value 21.4, which differs from the value
the claim requires, `round1(55.6 / 1.81^2) = 17.0`. -/
theorem c4_bmi_short_frame_cex :
    (processNotification dC4 9 initialStore 1).weight = ((556 : ℕ) : ℚ) / 10 ∧
    (processNotification dC4 9 initialStore 1).bmi = (initialStore 1).bmi ∧
    (initialStore 1).bmi ≠
      round1 ((((556 : ℕ) : ℚ) / 10) / (((181 : ℚ) / 100) ^ 2)) := by
  have hw : findWeightRaw dC4 [7, 8, 6] = some 556 := by
    norm_num [findWeightRaw, u16le, dC4]
  have hacc := processNotification_accept dC4 9 initialStore 556 (by decide) hw
  have hu : findUserId dC4 = 1 := by decide
  have hbmi : (initialStore 1).bmi = 107 / 5 := by
    show round1 ((70 : ℚ) / (((181 : ℕ) : ℚ) / 100) ^ 2) = 107 / 5
    norm_num [round1, pyRound]
  refine ⟨?_, ?_, ?_⟩
  · rw [hacc, hu]
    unfold storeUpdate
    rw [if_pos rfl, if_neg (by decide : ¬ 20 ≤ dC4.length)]
    exact round1_div_ten 556
  · rw [hacc, hu]
    unfold storeUpdate
    rw [if_pos rfl, if_neg (by decide : ¬ 20 ≤ dC4.length)]
  · rw [hbmi, show round1 ((((556 : ℕ) : ℚ) / 10) / (((181 : ℚ) / 100) ^ 2)) = 17 by
      norm_num [round1, pyRound]]
    norm_num

/-- C4 (corrected): whenever a decoded frame updates the weight of a
user, `bmi` is recomputed as the rounded `weight / (height_m)^2` with
the static height of the matched profile **only if** the frame is at
least 20 bytes long (the extended block); for accepted frames shorter
than 20 bytes the stored `bmi` keeps its previous value. -/
theorem c4_bmi_recompute (data : List ℕ) (now : ℕ) (store : ℕ → Measurements)
    (raw : ℕ) (h10 : 10 ≤ data.length)
    (hw : findWeightRaw data [7, 8, 6] = some raw) :
    (20 ≤ data.length →
      (processNotification data now store (findUserId data)).bmi =
        round1 (((raw : ℚ) / 10) /
          ((((profileD (findUserId data)).height : ℚ) / 100) ^ 2))) ∧
    (data.length < 20 →
      (processNotification data now store (findUserId data)).bmi =
        (store (findUserId data)).bmi) := by
  rw [processNotification_accept data now store raw (by omega) hw]
  unfold storeUpdate
  rw [if_pos rfl]
  constructor
  · intro h20
    rw [if_pos h20, updateExtended_spec _ _ _ _ h20]
  · intro hlt
    rw [if_neg (by omega : ¬ 20 ≤ data.length)]

/-- C4 witness: the amended theorem applied to the 20-byte frame `dW2`
(raw weight 700 attributed to user 2). -/
theorem c4_bmi_recompute_witness :
    (processNotification dW2 8 initialStore (findUserId dW2)).bmi =
      round1 ((((700 : ℕ) : ℚ) / 10) /
        ((((profileD (findUserId dW2)).height : ℚ) / 100) ^ 2)) :=
  (c4_bmi_recompute dW2 8 initialStore 700 (by decide)
    (by norm_num [findWeightRaw, u16le, dW2])).1 (by decide)

/-- C5 (confirmed): on every frame in which extended fields are
attempted (length at least 20), every one of the extended fields is
decoded and stored, and the stored value of each field equals `extValQ`
of that field's own two bytes alone — so no decode outcome of any one
field (out-of-range values included, which are stored as-is) can
prevent the decoding and storing of the others, and nothing in the
block is fatal to the decode: the `bmi` write at the end of the block
is always reached. -/
theorem c5_field_autonomy (data : List ℕ) (w : ℚ) (ht : ℕ) (m : Measurements)
    (h20 : 20 ≤ data.length) :
    (updateExtended data w ht m).body_fat = extValQ data 9 ∧
    (updateExtended data w ht m).water = extValQ data 11 ∧
    (updateExtended data w ht m).muscle = extValQ data 13 ∧
    (updateExtended data w ht m).bone_mass = extValQ data 15 ∧
    (updateExtended data w ht m).bmi = round1 (w / (((ht : ℚ) / 100) ^ 2)) := by
  rw [updateExtended_spec data w ht m h20]
  exact ⟨rfl, rfl, rfl, rfl, rfl⟩

/-- C5 witness: the theorem applied to the concrete 20-byte frame `dW5`. -/
theorem c5_field_autonomy_witness :
    (updateExtended dW5 70 181 (getDefaultMeasurements 1)).water = extValQ dW5 11 :=
  (c5_field_autonomy dW5 70 181 (getDefaultMeasurements 1) (by decide)).2.1

/-- C6 (confirmed): for every configured profile the serialized
per-user query command is exactly the 10 bytes
`E7 41 <userId> <genderByte> <age> <heightCm> 03 00 00 00` with gender
byte 1 for male and 0 for female. -/
theorem c6_query_command (uid : ℕ) (p : UserProfile)
    (h : (uid, p) ∈ USER_PROFILES) :
    buildUserCommand uid p =
      some [231, 65, uid, genderByte p.gender, p.age, p.height, 3, 0, 0, 0] := by
  fin_cases h <;> decide

/-- C6 witness: the profile `{id=3, male, age=21, height=184}` is
configured and its query command serializes to exactly
`E7 41 03 01 15 B8 03 00 00 00`. -/
theorem c6_query_command_witness :
    (3, (⟨"Diogo", "male", 21, 184⟩ : UserProfile)) ∈ USER_PROFILES ∧
    buildUserCommand 3 ⟨"Diogo", "male", 21, 184⟩ =
      some [231, 65, 3, 1, 21, 184, 3, 0, 0, 0] :=
  ⟨by decide,
   (c6_query_command 3 ⟨"Diogo", "male", 21, 184⟩ (by decide)).trans (by decide)⟩

/-- C7 (confirmed): when no cycle is in progress, the update cycle
always returns the (final) measurement store; on every failure outcome
the store it returns is unchanged from before the attempt; the
in-progress flag is cleared before returning on every path of the
attempt; and a successful session whose frames all fail to decode also
leaves the store unchanged (decode failures are never fatal). -/
theorem c7_soft_failure (env : CycleOutcome) (s : DeviceState)
    (h : s.is_scanning = false) :
    (async_update env s).1 = ((async_update env s).2.1).measurements ∧
    ((async_update env s).2.1).is_scanning = false ∧
    (env.isFailure = true → (async_update env s).1 = s.measurements) ∧
    (∀ frames : List (List ℕ × ℕ),
      (∀ f ∈ frames, f.1.length < 10 ∨ findWeightRaw f.1 [7, 8, 6] = none) →
      (async_update (CycleOutcome.success frames) s).1 = s.measurements) := by
  refine ⟨?_, ?_, ?_, ?_⟩
  · cases env <;> simp [async_update, h]
  · cases env <;> simp [async_update, h]
  · cases env <;> simp [async_update, h, CycleOutcome.isFailure]
  · intro frames hf
    have hs : (async_update (CycleOutcome.success frames) s).1 =
        runFrames frames s.measurements := by
      simp [async_update, h]
    rw [hs]
    exact runFrames_noop frames s.measurements hf

/-- C7 witness: the theorem applied to a concrete failed-connection
cycle on an idle engine with the initial store. -/
theorem c7_soft_failure_witness :
    (async_update CycleOutcome.connectFailed ⟨initialStore, false⟩).1 = initialStore :=
  (c7_soft_failure CycleOutcome.connectFailed ⟨initialStore, false⟩ rfl).2.2.1 rfl

/-- C8 (confirmed): an update cycle invoked while another cycle is in
progress returns the current store immediately, starts no scan, no
connection and no session (third component `false`), and leaves the
whole state unchanged. -/
theorem c8_single_flight (env : CycleOutcome) (s : DeviceState)
    (h : s.is_scanning = true) :
    async_update env s = (s.measurements, s, false) := by
  simp [async_update, h]

/-- C8 witness: the theorem applied to a busy engine, even with a
decodable frame pending in the environment. -/
theorem c8_single_flight_witness :
    async_update (CycleOutcome.success [([0, 0, 1, 0, 0, 0, 0, 44, 2, 0], 5)]) busyState =
      (busyState.measurements, busyState, false) :=
  c8_single_flight (CycleOutcome.success [([0, 0, 1, 0, 0, 0, 0, 44, 2, 0], 5)]) busyState rfl

/-- C9 counterexample: at construction the snapshot of user 1 has
`bmr = 1500`, `amr = 2000`, `metabolic_age = 50` and a non-zero default
`bmi` — four of the numeric fields the claim says default to the `0`
sentinel. -/
theorem c9_nonzero_defaults_cex :
    (initialStore 1).bmr = 1500 ∧ (initialStore 1).bmr ≠ 0 ∧
    (initialStore 1).amr = 2000 ∧ (initialStore 1).metabolic_age = 50 ∧
    (initialStore 1).bmi ≠ 0 := by
  refine ⟨rfl, by decide, rfl, rfl, ?_⟩
  rw [show (initialStore 1).bmi = 107 / 5 from by
    show round1 ((70 : ℚ) / (((181 : ℕ) : ℚ) / 100) ^ 2) = 107 / 5
    norm_num [round1, pyRound]]
  norm_num

/-- C9 (corrected): at engine construction every configured profile id
gets one snapshot in which `weight`, `body_fat`, `water`, `muscle`,
`bone_mass` and `visceral_fat` default to the `0` sentinel, while `bmi`
defaults to the rounded BMI of a nominal 70 kg (male) or 60 kg (female)
body, `bmr` to 1500/1200, `amr` to 2000/1600, and `metabolic_age` to
the age of the profile. -/
theorem c9_default_snapshot (uid : ℕ) (p : UserProfile)
    (h : (uid, p) ∈ USER_PROFILES) :
    (initialStore uid).weight = 0 ∧ (initialStore uid).body_fat = 0 ∧
    (initialStore uid).water = 0 ∧ (initialStore uid).muscle = 0 ∧
    (initialStore uid).bone_mass = 0 ∧ (initialStore uid).visceral_fat = 0 ∧
    (initialStore uid).bmi =
      round1 ((if p.gender = "male" then (70 : ℚ) else 60) /
        (((p.height : ℚ) / 100) ^ 2)) ∧
    (initialStore uid).bmr = (if p.gender = "male" then 1500 else 1200) ∧
    (initialStore uid).amr = (if p.gender = "male" then 2000 else 1600) ∧
    (initialStore uid).metabolic_age = p.age := by
  fin_cases h <;>
    exact ⟨rfl, rfl, rfl, rfl, rfl, rfl, rfl, rfl, rfl, rfl⟩

/-- C9 witness: the amended theorem applied to the configured profile
of user 1. -/
theorem c9_default_snapshot_witness :
    (1, (⟨"Pedro", "male", 50, 181⟩ : UserProfile)) ∈ USER_PROFILES ∧
    (initialStore 1).weight = 0 :=
  ⟨by decide, (c9_default_snapshot 1 ⟨"Pedro", "male", 50, 181⟩ (by decide)).1⟩

/-- C10 (confirmed): one decoder call modifies at most the snapshot of
the single user id the frame is attributed to; the snapshot of every
other user id is returned exactly as stored. -/
theorem c10_single_user_effect (data : List ℕ) (now : ℕ)
    (store : ℕ → Measurements) (uid : ℕ) (h : uid ≠ findUserId data) :
    processNotification data now store uid = store uid := by
  unfold processNotification
  split
  · rfl
  · cases hw : findWeightRaw data [7, 8, 6] with
    | none => rfl
    | some raw =>
      simp only [storeUpdate]
      rw [if_neg h]

/-- C10 witness: the theorem applied to a frame attributed to user 3,
read at the snapshot of user 2. -/
theorem c10_single_user_effect_witness :
    (2 : ℕ) ≠ findUserId dW10 ∧
    processNotification dW10 6 initialStore 2 = initialStore 2 :=
  ⟨by decide, c10_single_user_effect dW10 6 initialStore 2 (by decide)⟩
